import Mathlib

/-!
Verification of the cargo-fel4 build-command core (`src/build_cmd.rs`):
the flag translation, reconciliation, command construction and the
build-pipeline sequencing of `handle_build_cmd`.

External effects (process spawning, the filesystem, the process
environment) are modelled by an explicit `World` of outcomes and a trace
of `Event`s that `handle_build_cmd` produces; everything else is a direct
shallow embedding of the Rust source.
-/

namespace CargoFel4

/-- A configuration-flag key (the `Key` newtype of the `cmake_config`
crate is just a `String` wrapper; we use `String` directly). -/
abbrev Key := String

/-- Embedding of `SimpleFlag` from the `cmake_config` crate: a typed flag, either
boolean-valued (`Boolish`) or string-valued (`Stringish`), compared
structurally on key + variant + value. -/
inductive SimpleFlag where
  | Boolish (key : Key) (value : Bool)
  | Stringish (key : Key) (value : String)
deriving DecidableEq, Repr

/-- The key of a `SimpleFlag`, as extracted at `build_cmd.rs:149-151`. -/
def SimpleFlag.flagKey : SimpleFlag → Key
  | .Boolish k _ => k
  | .Stringish k _ => k

/-- Embedding of `FlatTomlValue` from the `fel4_config` crate: the declarative source
value of a fel4.toml property. `Float` and `Datetime` payloads are
modelled by their canonical textual rendering (the Rust code only ever
calls `to_string()` on them). -/
inductive FlatTomlValue where
  | Boolean (b : Bool)
  | Str (s : String)
  | Integer (n : Int)
  | Float (rendering : String)
  | Datetime (rendering : String)
deriving DecidableEq, Repr

/-- The body of the `fel4_flags` translation closure of
`build_cmd.rs:45-54`: one declarative entry becomes one `SimpleFlag`. -/
def translate_entry (kv : String × FlatTomlValue) : SimpleFlag :=
  match kv.2 with
  | .Boolean b => .Boolish kv.1 b
  | .Str s => .Stringish kv.1 s
  | .Integer n => .Stringish kv.1 (toString n)
  | .Float s => .Stringish kv.1 s
  | .Datetime s => .Stringish kv.1 s

/-- The `fel4_flags` translation of `build_cmd.rs:41-55`: map every
declarative property to a `SimpleFlag`. -/
def translate_properties (props : List (String × FlatTomlValue)) : List SimpleFlag :=
  props.map translate_entry

/-- Modelled from the spec: `truthy_identifiers` of §4.1 (the
`truthy_boolean_flags_as_rust_identifiers` function lives in the external
`cmake_codegen` crate) — "extracts the keys of all `Boolish` flags whose
value is `true`", in source order. -/
def truthy_boolean_flags_as_rust_identifiers (flags : List SimpleFlag) : List String :=
  (flags.filter fun f => match f with | .Boolish _ true => true | _ => false).map
    SimpleFlag.flagKey

/-- Embedding of `merge_feature_flags_with_rustflags_env_var`, `build_cmd.rs:318-332`.
The ambient `env::var("RUSTFLAGS")` read is made explicit as the
`existing_rustflags` argument; the Rust code normalizes an absent or
non-unicode variable to the empty string. -/
def merge_feature_flags_with_rustflags_env_var (existing_rustflags : String)
    (feature_flags : List String) : String :=
  let output := existing_rustflags
  let output := if output = "" then output else output ++ " "
  feature_flags.foldl
    (fun acc feature => acc ++ ("--cfg " ++ ("feature=\"" ++ feature ++ "\" "))) output

/-- Modelled from the spec: `SupportedTarget` of the external
`fel4_config` crate, the "closed enumeration of supported target
architectures"; the two ARM targets are the loader-based ones
(`build_cmd.rs:98-126`), the x86_64 target is the "other" arm of the
match. -/
inductive SupportedTarget where
  | X8664Sel4Fel4
  | Armv7Sel4Fel4
  | Aarch64Sel4Fel4
deriving DecidableEq, Repr

/-- Modelled from the spec: each target "carries its canonical triple
name"; the ARM triples appear verbatim in the `CC_*` environment keys of
`build_cmd.rs:308,311`. -/
def SupportedTarget.full_name : SupportedTarget → String
  | .X8664Sel4Fel4 => "x86_64-sel4-fel4"
  | .Armv7Sel4Fel4 => "armv7-sel4-fel4"
  | .Aarch64Sel4Fel4 => "aarch64-sel4-fel4"

/-- Modelled from the spec: `BuildProfile` — "{Debug, Release} × whether
test features are enabled" (the `Fel4BuildProfile` type lives in the
external `config` module). -/
inductive Fel4BuildProfile where
  | debug
  | release
  | testDebug
  | testRelease
deriving DecidableEq, Repr

/-- Modelled from the spec: the profile "determines command flags and the
on-disk cache subdirectory name"; distinct profiles use distinct
subdirectories. -/
def Fel4BuildProfile.artifact_subdir_path : Fel4BuildProfile → String
  | .debug => "debug"
  | .release => "release"
  | .testDebug => "test/debug"
  | .testRelease => "test/release"

/-- Modelled from the spec: the underlying debug/release cache directory
name used by the native target build cache
(`as_fel4_config_build_profile().full_name()` at `build_cmd.rs:31`). -/
def Fel4BuildProfile.cache_full_name : Fel4BuildProfile → String
  | .debug => "debug"
  | .release => "release"
  | .testDebug => "debug"
  | .testRelease => "release"

/-- Modelled from the spec: the verbosity options of the `BuildCmd`
("release/verbosity flags conditionally appended", §4.2); the
`LoudnessOpts` type lives in the external `config` module. -/
structure LoudnessOpts where
  verbose : Bool
  quiet : Bool
deriving DecidableEq, Repr

/-- The fields of the external `BuildCmd` options struct that
`build_cmd.rs` reads: the cargo manifest path, the release/tests switches
and the verbosity options. -/
structure BuildCmd where
  cargo_manifest_path : String
  release : Bool
  tests : Bool
  loudness : LoudnessOpts
deriving DecidableEq, Repr

/-- Modelled from the spec: `Fel4BuildProfile::from(subcmd)`
(`build_cmd.rs:19`) — the profile is determined by the tests/release
switches of the build command. -/
def Fel4BuildProfile.from_build_cmd (subcmd : BuildCmd) : Fel4BuildProfile :=
  if subcmd.tests then
    if subcmd.release then .testRelease else .testDebug
  else
    if subcmd.release then .release else .debug

/-- The subset of the external `Fel4Config` that `build_cmd.rs` reads. -/
structure Fel4Config where
  artifact_path : String
  target_specs_path : String
  target : SupportedTarget
  properties : List (String × FlatTomlValue)
deriving DecidableEq, Repr

/-- The subset of the external `ResolvedConfig` that `build_cmd.rs`
reads. -/
structure ResolvedConfig where
  root_dir : String
  fel4_config : Fel4Config
  pkg_module_name : String
  arch : String
deriving DecidableEq, Repr

/-- Embedding of `Path::join` on string paths: joining an absolute path replaces the
base, otherwise a separator is inserted. -/
def pathJoin (a b : String) : String :=
  if b.data.head? = some '/' then b
  else if a = "" then b
  else a ++ "/" ++ b

/-- The variants of the crate's `Error` enum used by `build_cmd.rs`:
`Error::IO`, `Error::ExitStatusError`, `Error::ConfigError`. -/
inductive Error where
  | io (msg : String)
  | ExitStatusError (msg : String)
  | ConfigError (msg : String)
deriving DecidableEq, Repr

/-- Embedding of `CrossLayerLocations`, `build_cmd.rs:256-260`. -/
structure CrossLayerLocations where
  fel4_manifest_path : String
  fel4_artifact_path : String
  rust_target_path : String
deriving DecidableEq, Repr

/-- A constructed (not yet executed) external command: program,
argument list, and environment-variable assignments in application
order. -/
structure Command where
  program : String
  args : List String
  env : List (String × String)
deriving DecidableEq, Repr

/-- Embedding of `Command::new`. -/
def Command.new (program : String) : Command :=
  { program := program, args := [], env := [] }

/-- Embedding of `Command::arg`. -/
def Command.addArg (c : Command) (a : String) : Command :=
  { c with args := c.args ++ [a] }

/-- Embedding of `arg_if` from the external `command_ext` crate: append the
argument exactly when the predicate holds. -/
def Command.argIf (c : Command) (cond : Bool) (a : String) : Command :=
  { c with args := c.args ++ (if cond then [a] else []) }

/-- Embedding of `Command::env`. -/
def Command.withEnv (c : Command) (k v : String) : Command :=
  { c with env := c.env ++ [(k, v)] }

/-- Modelled from the spec: `add_loudness_args` of the external
`command_ext` crate — verbosity flags are "conditionally appended". -/
def Command.add_loudness_args (c : Command) (l : LoudnessOpts) : Command :=
  (c.argIf l.verbose "--verbose").argIf l.quiet "--quiet"

/-- Embedding of `handle_arm_edge_case`, `build_cmd.rs:290-315`: a fixed
per-target compiler-environment override; non-ARM targets pass through
unchanged. -/
def Command.handle_arm_edge_case (c : Command) (target : SupportedTarget) : Command :=
  match target with
  | .Armv7Sel4Fel4 => c.withEnv "CC_armv7-sel4-fel4" "arm-linux-gnueabihf-gcc"
  | .Aarch64Sel4Fel4 => c.withEnv "CC_aarch64-sel4-fel4" "aarch64-linux-gnu-gcc"
  | _ => c

/-- Embedding of `add_locations_as_env_vars`, `build_cmd.rs:280-288`. -/
def Command.add_locations_as_env_vars (c : Command)
    (locations : CrossLayerLocations) : Command :=
  ((c.withEnv "FEL4_MANIFEST_PATH" locations.fel4_manifest_path).withEnv
      "FEL4_ARTIFACT_PATH" locations.fel4_artifact_path).withEnv
    "RUST_TARGET_PATH" locations.rust_target_path

/-- Embedding of `construct_root_task_build_command`, `build_cmd.rs:226-250`. -/
def construct_root_task_build_command (subcmd : BuildCmd) (config : ResolvedConfig)
    (cross_layer_locations : CrossLayerLocations) : Command :=
  ((((((((Command.new "xargo").addArg "rustc").addArg "--bin").addArg
      "root-task").addArg "--manifest-path").addArg
      subcmd.cargo_manifest_path).argIf subcmd.release
      "--release").add_loudness_args subcmd.loudness).handle_arm_edge_case
      config.fel4_config.target
    |>.argIf subcmd.tests "--features"
    |>.argIf subcmd.tests "test alloc"
    |>.addArg "--target"
    |>.addArg config.fel4_config.target.full_name
    |>.add_locations_as_env_vars cross_layer_locations

/-- Embedding of `construct_libsel4_build_command`, `build_cmd.rs:192-216`. -/
def construct_libsel4_build_command (subcmd : BuildCmd) (config : ResolvedConfig)
    (locations : CrossLayerLocations) : Command :=
  (((((Command.new "xargo").addArg "rustc").addArg "--manifest-path").addArg
      subcmd.cargo_manifest_path).argIf subcmd.release
      "--release").add_loudness_args subcmd.loudness
    |>.handle_arm_edge_case config.fel4_config.target
    |>.add_locations_as_env_vars locations
    |>.addArg "--target"
    |>.addArg config.fel4_config.target.full_name
    |>.addArg "-p"
    |>.addArg "libsel4-sys"

/-- Embedding of `RawFlag` from the external `cmake_config` crate, the spec's
`NativeCacheEntry`: "a raw key/value pair as read from the native build
system's persisted cache". -/
structure RawFlag where
  key : Key
  value : String
deriving DecidableEq, Repr

/-- Modelled from the spec: `SimpleFlag::from(&RawFlag)` of the external
`cmake_config` crate — a retained cache entry is converted "using the
same boolean/string inference rules as FlagTranslator"; scenario A of
the spec matches the declarative `debug_build: true` against the cache
entry `debug_build=ON`, so the CMake boolean spellings ON/TRUE and
OFF/FALSE infer `Boolish` and everything else stays `Stringish`. -/
def simple_flag_of_raw (r : RawFlag) : SimpleFlag :=
  if r.value = "ON" ∨ r.value = "TRUE" then .Boolish r.key true
  else if r.value = "OFF" ∨ r.value = "FALSE" then .Boolish r.key false
  else .Stringish r.key r.value

/-- The `HashSet<SimpleFlag>` built from the interesting CMake cache
flags at `build_cmd.rs:138-141`, modelled as a `Finset`. -/
def simple_cmake_flags (raw : List RawFlag) : Finset SimpleFlag :=
  (raw.map simple_flag_of_raw).toFinset

/-- The `HashSet<SimpleFlag>` built from the fel4 flags at
`build_cmd.rs:142`, modelled as a `Finset`. -/
def simple_fel4_flag_set (fel4_flags : List SimpleFlag) : Finset SimpleFlag :=
  fel4_flags.toFinset

/-- The structured content of the diagnostic loop at
`build_cmd.rs:144-160`: for every fel4 flag missing from the CMake flag
set, the flag itself together with every interesting raw cache entry
sharing its key. -/
def mismatch_report (fel4_flags : List SimpleFlag) (raw : List RawFlag) :
    List (SimpleFlag × List RawFlag) :=
  (fel4_flags.dedup.filter fun s => decide (s ∉ simple_cmake_flags raw)).map
    fun s => (s, raw.filter fun r => r.key = s.flagKey)

/-- The reconciliation gate of `build_cmd.rs:132-163` as a standalone
result: succeed exactly when the fel4 flag set is a subset of the
interesting CMake flag set, otherwise the `ConfigError` of
`build_cmd.rs:161`. -/
def reconcile (fel4_flags : List SimpleFlag) (raw : List RawFlag) : Except Error Unit :=
  if simple_fel4_flag_set fel4_flags ⊆ simple_cmake_flags raw then .ok ()
  else .error (.ConfigError
    "Unexpected mismatch between the fel4.toml config values and seL4's CMakeCache.txt config values")

/-- An observable side effect of the pipeline, in execution order:
directory creation, file creation, entry-point generation, external
command execution, file copy. -/
inductive Event where
  | createDir (dir : String)
  | createFile (file : String)
  | generate (file : String)
  | runCmd (cmd : Command)
  | copyFile (src dst : String)
deriving DecidableEq, Repr

/-- The outcomes of every external interaction `handle_build_cmd`
performs, made explicit: filesystem operations and spawned commands
either succeed or fail, the working-directory comparison yields a
boolean or an I/O error, the CMake cache parse yields the interesting
raw flags or an I/O error, the artifact existence checks yield booleans,
and the pre-existing `RUSTFLAGS` value is a string (absent normalized to
empty). -/
structure World where
  create_root_task_dir_ok : Bool
  create_root_file_ok : Bool
  generate_ok : Bool
  current_dir_check : Except Unit Bool
  root_task_build_ok : Bool
  create_artifact_dir_ok : Bool
  libsel4_build_ok : Bool
  copy_kernel_ok : Bool
  copy_root_task_ok : Bool
  interesting_flags : Except Unit (List RawFlag)
  sysimg_exists : Bool
  kernel_exists : Bool
  rustflags_env : String
deriving Repr

/-- The artifact output directory computed at `build_cmd.rs:22-25`. -/
def artifact_path_of (subcmd : BuildCmd) (config : ResolvedConfig) : String :=
  pathJoin (pathJoin config.root_dir config.fel4_config.artifact_path)
    (Fel4BuildProfile.from_build_cmd subcmd).artifact_subdir_path

/-- The target build cache directory computed at `build_cmd.rs:27-31`. -/
def target_build_cache_path_of (subcmd : BuildCmd) (config : ResolvedConfig) : String :=
  pathJoin
    (pathJoin (pathJoin config.root_dir "target") config.fel4_config.target.full_name)
    (Fel4BuildProfile.from_build_cmd subcmd).cache_full_name

/-- The `CrossLayerLocations` computed at `build_cmd.rs:35-39`. -/
def cross_layer_locations_of (subcmd : BuildCmd) (config : ResolvedConfig) :
    CrossLayerLocations :=
  { fel4_artifact_path := pathJoin config.root_dir (artifact_path_of subcmd config)
    fel4_manifest_path := pathJoin config.root_dir "fel4.toml"
    rust_target_path := pathJoin config.root_dir config.fel4_config.target_specs_path }

/-- Embedding of `handle_build_cmd`, `build_cmd.rs:18-185`, from the resolved
configuration on (config resolution itself is external). Returns the
trace of completed side effects together with the result; every early
`return Err(..)` of the Rust code becomes an `.error` with the trace
accumulated so far. -/
def handle_build_cmd (subcmd : BuildCmd) (config : ResolvedConfig) (w : World) :
    List Event × Except Error Unit :=
  let artifact_path := artifact_path_of subcmd config
  let target_build_cache_path := target_build_cache_path_of subcmd config
  let cross_layer_locations := cross_layer_locations_of subcmd config
  let fel4_flags := translate_properties config.fel4_config.properties
  let rustflags_env_var := merge_feature_flags_with_rustflags_env_var w.rustflags_env
    (truthy_boolean_flags_as_rust_identifiers fel4_flags)
  let root_task_path := pathJoin (pathJoin config.root_dir "src") "bin"
  let root_task_file := pathJoin root_task_path "root-task.rs"
  if !w.create_root_task_dir_ok then
    ([], .error (.io "Difficulty creating directory"))
  else if !w.create_root_file_ok then
    ([.createDir root_task_path], .error (.io "Could not create root-task file."))
  else if !w.generate_ok then
    ([.createDir root_task_path, .createFile root_task_file],
      .error (.io "generation failed"))
  else
    let ev0 := [Event.createDir root_task_path, .createFile root_task_file,
      .generate root_task_file]
    match w.current_dir_check with
    | .error _ => (ev0, .error (.io "Error with current dir comparison"))
    | .ok false => (ev0, .error (.ExitStatusError
        "The build command does not work with a cargo manifest directory that differs from the current working directory due to limitations of Xargo"))
    | .ok true =>
      let root_task_cmd :=
        (construct_root_task_build_command subcmd config cross_layer_locations).withEnv
          "RUSTFLAGS" rustflags_env_var
      let ev1 := ev0 ++ [Event.runCmd root_task_cmd]
      if !w.root_task_build_ok then
        (ev1, .error (.ExitStatusError "root task build command failed"))
      else
        let sysimg_path := pathJoin artifact_path "feL4img"
        let kernel_path := pathJoin artifact_path "kernel"
        if !w.create_artifact_dir_ok then
          (ev1, .error (.io "Difficulty creating artifact directory"))
        else
          let ev2 := ev1 ++ [Event.createDir artifact_path]
          let after_match : List Event × Except Error Unit :=
            match config.fel4_config.target with
            | .Armv7Sel4Fel4 | .Aarch64Sel4Fel4 =>
              let libsel4_cmd :=
                ((construct_libsel4_build_command subcmd config
                      cross_layer_locations).withEnv "FEL4_ROOT_TASK_IMAGE_PATH"
                    (pathJoin target_build_cache_path "root-task")).withEnv
                  "RUSTFLAGS" rustflags_env_var
              let ev3 := ev2 ++ [Event.runCmd libsel4_cmd]
              if !w.libsel4_build_ok then
                (ev3, .error (.ExitStatusError "libsel4 build command failed"))
              else if !w.copy_kernel_ok then
                (ev3, .error (.io "copy failed"))
              else
                (ev3 ++ [Event.copyFile kernel_path sysimg_path], .ok ())
            | _ =>
              if !w.copy_root_task_ok then
                (ev2, .error (.io "copy failed"))
              else
                (ev2 ++ [Event.copyFile (pathJoin target_build_cache_path "root-task")
                    sysimg_path], .ok ())
          match after_match with
          | (ev3, res) =>
            (ev3,
              match res with
              | .error e => .error e
              | .ok () =>
                match w.interesting_flags with
                | .error _ => .error (.io "could not read CMakeCache.txt")
                | .ok raw =>
                  match reconcile fel4_flags raw with
                  | .error e => .error e
                  | .ok () =>
                    if !w.sysimg_exists then
                      .error (.ConfigError
                        "Something went wrong with the build, cannot find the system image")
                    else if !w.kernel_exists then
                      .error (.ConfigError
                        "Something went wrong with the build, cannot find the kernel file")
                    else
                      .ok ())

/-! ## Theorems -/

/-- Appending flag tokens by left fold factors over a fixed prefix of the
accumulator. -/
theorem foldl_append_factor (g : String → String) (fs : List String) :
    ∀ a : String, fs.foldl (fun acc f => acc ++ g f) a =
      a ++ fs.foldl (fun acc f => acc ++ g f) "" := by
  induction fs with
  | nil => intro a; exact (String.append_empty a).symm
  | cons f t ih =>
    intro a
    simp only [List.foldl_cons]
    rw [ih (a ++ g f), ih ("" ++ g f), String.empty_append, String.append_assoc]

/-- C2: translation produces exactly one `SimpleFlag` per declarative
entry — the lengths agree and the keys are preserved in order — and each
value kind maps as specified: a `Boolean` becomes `Boolish` with the same
boolean, while `String`, `Integer`, `Float` and `Datetime` values become
`Stringish` carrying their canonical textual rendering. -/
theorem translation_one_flag_per_key (props : List (String × FlatTomlValue)) :
    (translate_properties props).length = props.length ∧
    (translate_properties props).map SimpleFlag.flagKey = props.map Prod.fst ∧
    (∀ k b, (k, FlatTomlValue.Boolean b) ∈ props →
      SimpleFlag.Boolish k b ∈ translate_properties props) ∧
    (∀ k s, (k, FlatTomlValue.Str s) ∈ props →
      SimpleFlag.Stringish k s ∈ translate_properties props) ∧
    (∀ k n, (k, FlatTomlValue.Integer n) ∈ props →
      SimpleFlag.Stringish k (toString n) ∈ translate_properties props) ∧
    (∀ k s, (k, FlatTomlValue.Float s) ∈ props →
      SimpleFlag.Stringish k s ∈ translate_properties props) ∧
    (∀ k s, (k, FlatTomlValue.Datetime s) ∈ props →
      SimpleFlag.Stringish k s ∈ translate_properties props) := by
  refine ⟨by simp [translate_properties], ?_, ?_, ?_, ?_, ?_, ?_⟩
  · induction props with
    | nil => rfl
    | cons p t ih =>
      obtain ⟨k, v⟩ := p
      cases v <;>
        simp only [translate_properties, List.map_cons, List.map_map] at ih ⊢ <;>
        simp [translate_entry, SimpleFlag.flagKey, ih]
  all_goals
    intro k x hx
    simp only [translate_properties]
    exact List.mem_map.mpr ⟨_, hx, rfl⟩

/-- Concrete instantiation of `translation_one_flag_per_key`. -/
theorem translation_one_flag_per_key_witness :
    (translate_properties [("a", FlatTomlValue.Boolean true),
        ("n", FlatTomlValue.Integer 5)]).length = 2 ∧
    SimpleFlag.Boolish "a" true ∈ translate_properties
      [("a", FlatTomlValue.Boolean true), ("n", FlatTomlValue.Integer 5)] := by
  have h := translation_one_flag_per_key
    [("a", FlatTomlValue.Boolean true), ("n", FlatTomlValue.Integer 5)]
  exact ⟨h.1, h.2.2.1 "a" true (by simp)⟩

/-- C5: merging feature flags onto a non-empty pre-existing `RUSTFLAGS`
value yields the pre-existing value, one space, then exactly the string
produced from an empty pre-existing value: the existing content is a
preserved prefix, never overwritten. -/
theorem merge_preserves_existing_rustflags (existing : String)
    (feature_flags : List String) (h : existing ≠ "") :
    merge_feature_flags_with_rustflags_env_var existing feature_flags =
      existing ++ " " ++
        merge_feature_flags_with_rustflags_env_var "" feature_flags := by
  simp only [merge_feature_flags_with_rustflags_env_var]
  rw [if_neg h, if_pos trivial, foldl_append_factor]

/-- Concrete instantiation of `merge_preserves_existing_rustflags`. -/
theorem merge_preserves_existing_rustflags_witness :
    merge_feature_flags_with_rustflags_env_var "-C opt-level=2" ["alpha"] =
      "-C opt-level=2" ++ " " ++
        merge_feature_flags_with_rustflags_env_var "" ["alpha"] :=
  merge_preserves_existing_rustflags "-C opt-level=2" ["alpha"] (by decide)

/-- C1: reconciliation succeeds exactly when the declarative (fel4) flag
set is a subset of the interesting flags parsed from the CMake cache,
under structural `SimpleFlag` equality; when the subset check fails,
`handle_build_cmd` — with every prior stage having completed — returns
the reconciliation `ConfigError` instead of succeeding. -/
theorem reconcile_iff_subset (subcmd : BuildCmd) (config : ResolvedConfig)
    (w : World) (raw : List RawFlag)
    (hflags : w.interesting_flags = .ok raw)
    (hdir : w.create_root_task_dir_ok = true)
    (hfile : w.create_root_file_ok = true)
    (hgen : w.generate_ok = true)
    (hcwd : w.current_dir_check = .ok true)
    (hroot : w.root_task_build_ok = true)
    (hart : w.create_artifact_dir_ok = true)
    (hlib : w.libsel4_build_ok = true)
    (hck : w.copy_kernel_ok = true)
    (hcr : w.copy_root_task_ok = true)
    (hsys : w.sysimg_exists = true)
    (hker : w.kernel_exists = true) :
    (reconcile (translate_properties config.fel4_config.properties) raw = .ok () ↔
      simple_fel4_flag_set (translate_properties config.fel4_config.properties) ⊆
        simple_cmake_flags raw) ∧
    ((handle_build_cmd subcmd config w).2 = .ok () ↔
      simple_fel4_flag_set (translate_properties config.fel4_config.properties) ⊆
        simple_cmake_flags raw) ∧
    (¬ simple_fel4_flag_set (translate_properties config.fel4_config.properties) ⊆
        simple_cmake_flags raw →
      (handle_build_cmd subcmd config w).2 = .error (.ConfigError
        "Unexpected mismatch between the fel4.toml config values and seL4's CMakeCache.txt config values")) := by
  obtain ⟨root_dir, ⟨ap, tsp, tgt, props⟩, pmn, arch⟩ := config
  by_cases hsub : simple_fel4_flag_set (translate_properties props) ⊆ simple_cmake_flags raw <;>
    cases tgt <;>
      simp [handle_build_cmd, reconcile, hflags, hdir, hfile, hgen, hcwd, hroot,
        hart, hlib, hck, hcr, hsys, hker, hsub]

/-- A sample build command: a plain (non-test, non-release, quiet-less)
invocation. -/
def sampleBuildCmd : BuildCmd where
  cargo_manifest_path := "/r/Cargo.toml"
  release := false
  tests := false
  loudness := { verbose := false, quiet := false }

/-- A sample resolved configuration for the x86_64 target with a single
boolean property. -/
def sampleConfigX86 : ResolvedConfig where
  root_dir := "/r"
  fel4_config :=
    { artifact_path := "artifacts"
      target_specs_path := "targets"
      target := .X8664Sel4Fel4
      properties := [("feature_x", FlatTomlValue.Boolean true)] }
  pkg_module_name := "app"
  arch := "x86"

/-- The sample configuration retargeted at the ARMv7 loader target. -/
def sampleConfigArm : ResolvedConfig :=
  { sampleConfigX86 with
      fel4_config := { sampleConfigX86.fel4_config with target := .Armv7Sel4Fel4 } }

/-- A world in which every external interaction succeeds, the working
directory matches the root directory, and the CMake cache contains no
interesting flags. -/
def sampleWorldAllOk : World where
  create_root_task_dir_ok := true
  create_root_file_ok := true
  generate_ok := true
  current_dir_check := .ok true
  root_task_build_ok := true
  create_artifact_dir_ok := true
  libsel4_build_ok := true
  copy_kernel_ok := true
  copy_root_task_ok := true
  interesting_flags := .ok []
  sysimg_exists := true
  kernel_exists := true
  rustflags_env := ""

/-- Concrete instantiation of `reconcile_iff_subset`. -/
theorem reconcile_iff_subset_witness :
    ¬ simple_fel4_flag_set (translate_properties [("feature_x", FlatTomlValue.Boolean true)]) ⊆
        simple_cmake_flags [] ∧
    (handle_build_cmd sampleBuildCmd sampleConfigX86 sampleWorldAllOk).2 =
      .error (.ConfigError
        "Unexpected mismatch between the fel4.toml config values and seL4's CMakeCache.txt config values") := by
  have hmiss : ¬ simple_fel4_flag_set
      (translate_properties [("feature_x", FlatTomlValue.Boolean true)]) ⊆
        simple_cmake_flags [] := by decide
  exact ⟨hmiss,
    (reconcile_iff_subset sampleBuildCmd sampleConfigX86 sampleWorldAllOk [] rfl rfl
        rfl rfl rfl rfl rfl rfl rfl rfl rfl rfl).2.2 hmiss⟩

/-- C6: whenever a declarative flag is missing from the native flag set,
the mismatch report of the reconciliation failure contains an entry
naming that flag, and that entry lists exactly the retained native cache
entries whose key equals the missing flag's key — membership depends only
on the key, not on the native entry's value or inferred kind. -/
theorem mismatch_report_names_missing_flags (fel4_flags : List SimpleFlag)
    (raw : List RawFlag) (s : SimpleFlag)
    (hs : s ∈ fel4_flags) (hmiss : s ∉ simple_cmake_flags raw) :
    ∃ entry ∈ mismatch_report fel4_flags raw,
      entry.1 = s ∧ ∀ r ∈ raw, (r ∈ entry.2 ↔ r.key = s.flagKey) := by
  refine ⟨(s, raw.filter fun r => r.key = s.flagKey), ?_, rfl, ?_⟩
  · simp only [mismatch_report]
    apply List.mem_map.mpr
    refine ⟨s, ?_, rfl⟩
    simp [List.mem_filter, List.mem_dedup, hs, hmiss]
  · intro r hr
    simp [List.mem_filter, hr]

/-- Concrete instantiation of `mismatch_report_names_missing_flags`. -/
theorem mismatch_report_names_missing_flags_witness :
    (SimpleFlag.Boolish "feature_x" true ∈ [SimpleFlag.Boolish "feature_x" true] ∧
      SimpleFlag.Boolish "feature_x" true ∉
        simple_cmake_flags [{ key := "feature_x", value := "nope" }]) ∧
    ∃ entry ∈ mismatch_report [SimpleFlag.Boolish "feature_x" true]
        [{ key := "feature_x", value := "nope" }],
      entry.1 = SimpleFlag.Boolish "feature_x" true ∧
      ∀ r ∈ [({ key := "feature_x", value := "nope" } : RawFlag)],
        (r ∈ entry.2 ↔ r.key = (SimpleFlag.Boolish "feature_x" true).flagKey) := by
  have h1 : SimpleFlag.Boolish "feature_x" true ∈
      [SimpleFlag.Boolish "feature_x" true] := by decide
  have h2 : SimpleFlag.Boolish "feature_x" true ∉
      simple_cmake_flags [{ key := "feature_x", value := "nope" }] := by decide
  exact ⟨⟨h1, h2⟩, mismatch_report_names_missing_flags _ _ _ h1 h2⟩

/-- The sample world, but with the working directory differing from the
resolved root directory. -/
def sampleWorldWrongDir : World :=
  { sampleWorldAllOk with current_dir_check := .ok false }

/-- C4: when the working-directory comparison reports a mismatch, no
external build command is ever executed (the trace holds no `runCmd`
event at all), and — the entry-point generation stages having succeeded —
`handle_build_cmd` returns the Xargo `ExitStatusError`. -/
theorem dir_mismatch_aborts_without_commands (subcmd : BuildCmd)
    (config : ResolvedConfig) (w : World)
    (h : w.current_dir_check = .ok false) :
    (∀ c, Event.runCmd c ∉ (handle_build_cmd subcmd config w).1) ∧
    (w.create_root_task_dir_ok = true → w.create_root_file_ok = true →
      w.generate_ok = true →
      (handle_build_cmd subcmd config w).2 = .error (.ExitStatusError
        "The build command does not work with a cargo manifest directory that differs from the current working directory due to limitations of Xargo")) := by
  rcases hd : w.create_root_task_dir_ok <;>
    rcases hf : w.create_root_file_ok <;>
      rcases hg : w.generate_ok <;>
        simp [handle_build_cmd, h, hd, hf, hg]

/-- Concrete instantiation of `dir_mismatch_aborts_without_commands`. -/
theorem dir_mismatch_aborts_without_commands_witness :
    Event.runCmd (Command.new "xargo") ∉
      (handle_build_cmd sampleBuildCmd sampleConfigX86 sampleWorldWrongDir).1 ∧
    (handle_build_cmd sampleBuildCmd sampleConfigX86 sampleWorldWrongDir).2 =
      .error (.ExitStatusError
        "The build command does not work with a cargo manifest directory that differs from the current working directory due to limitations of Xargo") := by
  have h := dir_mismatch_aborts_without_commands sampleBuildCmd sampleConfigX86
    sampleWorldWrongDir rfl
  exact ⟨h.1 (Command.new "xargo"), h.2 rfl rfl rfl⟩

/-- C10: the entry-point generation stage runs before the
working-directory precondition is checked — when `handle_build_cmd`
aborts with the directory-mismatch `ExitStatusError`, the trace already
records the creation of the `src/bin` directory, the creation of the
generated `root-task.rs` file, and its generation. -/
theorem generation_precedes_dir_check (subcmd : BuildCmd)
    (config : ResolvedConfig) (w : World)
    (hd : w.create_root_task_dir_ok = true) (hf : w.create_root_file_ok = true)
    (hg : w.generate_ok = true) (hcwd : w.current_dir_check = .ok false) :
    (handle_build_cmd subcmd config w).2 = .error (.ExitStatusError
      "The build command does not work with a cargo manifest directory that differs from the current working directory due to limitations of Xargo") ∧
    Event.createDir (pathJoin (pathJoin config.root_dir "src") "bin") ∈
      (handle_build_cmd subcmd config w).1 ∧
    Event.createFile
        (pathJoin (pathJoin (pathJoin config.root_dir "src") "bin") "root-task.rs") ∈
      (handle_build_cmd subcmd config w).1 ∧
    Event.generate
        (pathJoin (pathJoin (pathJoin config.root_dir "src") "bin") "root-task.rs") ∈
      (handle_build_cmd subcmd config w).1 := by
  simp [handle_build_cmd, hd, hf, hg, hcwd]

/-- Concrete instantiation of `generation_precedes_dir_check`. -/
theorem generation_precedes_dir_check_witness :
    (handle_build_cmd sampleBuildCmd sampleConfigX86 sampleWorldWrongDir).2 =
      .error (.ExitStatusError
        "The build command does not work with a cargo manifest directory that differs from the current working directory due to limitations of Xargo") ∧
    Event.createDir "/r/src/bin" ∈
      (handle_build_cmd sampleBuildCmd sampleConfigX86 sampleWorldWrongDir).1 ∧
    Event.createFile "/r/src/bin/root-task.rs" ∈
      (handle_build_cmd sampleBuildCmd sampleConfigX86 sampleWorldWrongDir).1 ∧
    Event.generate "/r/src/bin/root-task.rs" ∈
      (handle_build_cmd sampleBuildCmd sampleConfigX86 sampleWorldWrongDir).1 :=
  generation_precedes_dir_check sampleBuildCmd sampleConfigX86 sampleWorldWrongDir
    rfl rfl rfl rfl

/-- The merged `RUSTFLAGS` value used by both build commands of
`handle_build_cmd` (`build_cmd.rs:56-58`). -/
def rustflags_of (config : ResolvedConfig) (w : World) : String :=
  merge_feature_flags_with_rustflags_env_var w.rustflags_env
    (truthy_boolean_flags_as_rust_identifiers
      (translate_properties config.fel4_config.properties))

/-- Helper: with every stage outcome successful, the pipeline trace is
fully determined by the target branch of `build_cmd.rs:98-130`. -/
theorem handle_build_cmd_trace (subcmd : BuildCmd)
    (config : ResolvedConfig) (w : World)
    (hd : w.create_root_task_dir_ok = true) (hf : w.create_root_file_ok = true)
    (hg : w.generate_ok = true) (hcwd : w.current_dir_check = .ok true)
    (hroot : w.root_task_build_ok = true) (hart : w.create_artifact_dir_ok = true)
    (hlib : w.libsel4_build_ok = true) (hck : w.copy_kernel_ok = true)
    (hcr : w.copy_root_task_ok = true) :
    (handle_build_cmd subcmd config w).1 =
      [Event.createDir (pathJoin (pathJoin config.root_dir "src") "bin"),
        Event.createFile
          (pathJoin (pathJoin (pathJoin config.root_dir "src") "bin") "root-task.rs"),
        Event.generate
          (pathJoin (pathJoin (pathJoin config.root_dir "src") "bin") "root-task.rs"),
        Event.runCmd ((construct_root_task_build_command subcmd config
            (cross_layer_locations_of subcmd config)).withEnv "RUSTFLAGS"
          (rustflags_of config w)),
        Event.createDir (artifact_path_of subcmd config)] ++
      (match config.fel4_config.target with
        | .Armv7Sel4Fel4 | .Aarch64Sel4Fel4 =>
          [Event.runCmd (((construct_libsel4_build_command subcmd config
                (cross_layer_locations_of subcmd config)).withEnv
                "FEL4_ROOT_TASK_IMAGE_PATH"
                (pathJoin (target_build_cache_path_of subcmd config)
                  "root-task")).withEnv "RUSTFLAGS" (rustflags_of config w)),
            Event.copyFile (pathJoin (artifact_path_of subcmd config) "kernel")
              (pathJoin (artifact_path_of subcmd config) "feL4img")]
        | .X8664Sel4Fel4 =>
          [Event.copyFile
              (pathJoin (target_build_cache_path_of subcmd config) "root-task")
              (pathJoin (artifact_path_of subcmd config) "feL4img")]) := by
  obtain ⟨root_dir, ⟨ap, tsp, tgt, props⟩, pmn, arch⟩ := config
  cases tgt <;>
    simp [handle_build_cmd, rustflags_of, hd, hf, hg, hcwd, hroot, hart, hlib,
      hck, hcr]

/-- C3: with every stage outcome successful, exactly the loader-based
targets (`Armv7Sel4Fel4` and `Aarch64Sel4Fel4`) run a second,
kernel-support (libsel4-sys) build command carrying the
`FEL4_ROOT_TASK_IMAGE_PATH` variable pointing at the already-built
root-task binary and then copy the kernel file to the canonical
`feL4img` system-image name; every other target runs no second command
and copies the root-task binary from the target build cache directly to
the system-image name.  The whole trace is pinned, so nothing else is an
external command either. -/
theorem loader_targets_rebuild_kernel_support (subcmd : BuildCmd)
    (config : ResolvedConfig) (w : World)
    (hd : w.create_root_task_dir_ok = true) (hf : w.create_root_file_ok = true)
    (hg : w.generate_ok = true) (hcwd : w.current_dir_check = .ok true)
    (hroot : w.root_task_build_ok = true) (hart : w.create_artifact_dir_ok = true)
    (hlib : w.libsel4_build_ok = true) (hck : w.copy_kernel_ok = true)
    (hcr : w.copy_root_task_ok = true) :
    (handle_build_cmd subcmd config w).1 =
      [Event.createDir (pathJoin (pathJoin config.root_dir "src") "bin"),
        Event.createFile
          (pathJoin (pathJoin (pathJoin config.root_dir "src") "bin") "root-task.rs"),
        Event.generate
          (pathJoin (pathJoin (pathJoin config.root_dir "src") "bin") "root-task.rs"),
        Event.runCmd ((construct_root_task_build_command subcmd config
            (cross_layer_locations_of subcmd config)).withEnv "RUSTFLAGS"
          (rustflags_of config w)),
        Event.createDir (artifact_path_of subcmd config)] ++
      (match config.fel4_config.target with
        | .Armv7Sel4Fel4 | .Aarch64Sel4Fel4 =>
          [Event.runCmd (((construct_libsel4_build_command subcmd config
                (cross_layer_locations_of subcmd config)).withEnv
                "FEL4_ROOT_TASK_IMAGE_PATH"
                (pathJoin (target_build_cache_path_of subcmd config)
                  "root-task")).withEnv "RUSTFLAGS" (rustflags_of config w)),
            Event.copyFile (pathJoin (artifact_path_of subcmd config) "kernel")
              (pathJoin (artifact_path_of subcmd config) "feL4img")]
        | .X8664Sel4Fel4 =>
          [Event.copyFile
              (pathJoin (target_build_cache_path_of subcmd config) "root-task")
              (pathJoin (artifact_path_of subcmd config) "feL4img")]) :=
  handle_build_cmd_trace subcmd config w hd hf hg hcwd hroot hart hlib hck hcr

/-- Concrete instantiation of `loader_targets_rebuild_kernel_support` at
the ARMv7 loader target. -/
theorem loader_targets_rebuild_kernel_support_witness :
    (handle_build_cmd sampleBuildCmd sampleConfigArm sampleWorldAllOk).1 =
      [Event.createDir "/r/src/bin",
        Event.createFile "/r/src/bin/root-task.rs",
        Event.generate "/r/src/bin/root-task.rs",
        Event.runCmd ((construct_root_task_build_command sampleBuildCmd
            sampleConfigArm
            (cross_layer_locations_of sampleBuildCmd sampleConfigArm)).withEnv
          "RUSTFLAGS" (rustflags_of sampleConfigArm sampleWorldAllOk)),
        Event.createDir "/r/artifacts/debug"] ++
      [Event.runCmd (((construct_libsel4_build_command sampleBuildCmd
            sampleConfigArm
            (cross_layer_locations_of sampleBuildCmd sampleConfigArm)).withEnv
            "FEL4_ROOT_TASK_IMAGE_PATH"
            "/r/target/armv7-sel4-fel4/debug/root-task").withEnv "RUSTFLAGS"
          (rustflags_of sampleConfigArm sampleWorldAllOk)),
        Event.copyFile "/r/artifacts/debug/kernel" "/r/artifacts/debug/feL4img"] :=
  loader_targets_rebuild_kernel_support sampleBuildCmd sampleConfigArm
    sampleWorldAllOk rfl rfl rfl rfl rfl rfl rfl rfl rfl

/-- Whether the trace writes a file at the given path (by copy or file
creation). -/
def writes_to (evs : List Event) (p : String) : Bool :=
  evs.any fun e =>
    match e with
    | .copyFile _ dst => dst = p
    | .createFile f => f = p
    | _ => false

/-- The sample world for the x86_64 configuration in which the CMake
cache contains a matching `feature_x=ON` entry, so reconciliation
succeeds and the whole pipeline returns success. -/
def sampleWorldReconciled : World :=
  { sampleWorldAllOk with
      interesting_flags := .ok [{ key := "feature_x", value := "ON" }] }

/-- C7's claim is false on the code: in a fully successful x86_64 run the
pipeline writes the system image but writes nothing at the canonical
kernel artifact path — the kernel file is only checked for existence. -/
theorem pipeline_never_writes_kernel_counterexample :
    (handle_build_cmd sampleBuildCmd sampleConfigX86 sampleWorldReconciled).2 =
      .ok () ∧
    writes_to (handle_build_cmd sampleBuildCmd sampleConfigX86
        sampleWorldReconciled).1 "/r/artifacts/debug/feL4img" = true ∧
    writes_to (handle_build_cmd sampleBuildCmd sampleConfigX86
        sampleWorldReconciled).1 "/r/artifacts/debug/kernel" = false := by
  refine ⟨?_, rfl, rfl⟩
  rfl

/-- C7 amended: the artifact-assembly step ensures the artifact
directory exists and copies a binary output to the canonical
system-image name, which is the only file-copy destination of the whole
pipeline; the kernel artifact path is never written by the pipeline
itself (the only file the pipeline creates is the generated entry-point
source). -/
theorem artifact_assembly_writes_sysimg_only (subcmd : BuildCmd)
    (config : ResolvedConfig) (w : World)
    (hd : w.create_root_task_dir_ok = true) (hf : w.create_root_file_ok = true)
    (hg : w.generate_ok = true) (hcwd : w.current_dir_check = .ok true)
    (hroot : w.root_task_build_ok = true) (hart : w.create_artifact_dir_ok = true)
    (hlib : w.libsel4_build_ok = true) (hck : w.copy_kernel_ok = true)
    (hcr : w.copy_root_task_ok = true) :
    Event.createDir (artifact_path_of subcmd config) ∈
      (handle_build_cmd subcmd config w).1 ∧
    (match config.fel4_config.target with
      | .Armv7Sel4Fel4 | .Aarch64Sel4Fel4 =>
        Event.copyFile (pathJoin (artifact_path_of subcmd config) "kernel")
            (pathJoin (artifact_path_of subcmd config) "feL4img") ∈
          (handle_build_cmd subcmd config w).1
      | .X8664Sel4Fel4 =>
        Event.copyFile (pathJoin (target_build_cache_path_of subcmd config)
              "root-task")
            (pathJoin (artifact_path_of subcmd config) "feL4img") ∈
          (handle_build_cmd subcmd config w).1) ∧
    (∀ src dst, Event.copyFile src dst ∈ (handle_build_cmd subcmd config w).1 →
      dst = pathJoin (artifact_path_of subcmd config) "feL4img") ∧
    (∀ f, Event.createFile f ∈ (handle_build_cmd subcmd config w).1 →
      f = pathJoin (pathJoin (pathJoin config.root_dir "src") "bin")
        "root-task.rs") := by
  have htrace := handle_build_cmd_trace subcmd config w hd hf hg
    hcwd hroot hart hlib hck hcr
  rw [htrace]
  obtain ⟨root_dir, ⟨ap, tsp, tgt, props⟩, pmn, arch⟩ := config
  cases tgt <;>
    simp +contextual [artifact_path_of, eq_comm]

/-- Concrete instantiation of `artifact_assembly_writes_sysimg_only` at
the ARMv7 loader target. -/
theorem artifact_assembly_writes_sysimg_only_witness :
    Event.createDir "/r/artifacts/debug" ∈
      (handle_build_cmd sampleBuildCmd sampleConfigArm sampleWorldAllOk).1 ∧
    Event.copyFile "/r/artifacts/debug/kernel" "/r/artifacts/debug/feL4img" ∈
      (handle_build_cmd sampleBuildCmd sampleConfigArm sampleWorldAllOk).1 := by
  have h := artifact_assembly_writes_sysimg_only sampleBuildCmd sampleConfigArm
    sampleWorldAllOk rfl rfl rfl rfl rfl rfl rfl rfl rfl
  exact ⟨h.1, h.2.1⟩

/-- The argument list of the constructed root-task build command, as a
flat concatenation. -/
theorem construct_root_task_args (subcmd : BuildCmd) (config : ResolvedConfig)
    (locations : CrossLayerLocations) :
    (construct_root_task_build_command subcmd config locations).args =
      ["rustc", "--bin", "root-task", "--manifest-path",
        subcmd.cargo_manifest_path] ++
      (if subcmd.release then ["--release"] else []) ++
      (if subcmd.loudness.verbose then ["--verbose"] else []) ++
      (if subcmd.loudness.quiet then ["--quiet"] else []) ++
      (if subcmd.tests then ["--features"] else []) ++
      (if subcmd.tests then ["test alloc"] else []) ++
      ["--target", config.fel4_config.target.full_name] := by
  obtain ⟨root_dir, ⟨ap, tsp, tgt, props⟩, pmn, arch⟩ := config
  cases tgt <;>
    simp [construct_root_task_build_command, Command.new, Command.addArg,
      Command.argIf, Command.withEnv, Command.add_loudness_args,
      Command.handle_arm_edge_case, Command.add_locations_as_env_vars]

/-- The argument list of the constructed kernel-support (libsel4-sys)
build command, as a flat concatenation. -/
theorem construct_libsel4_args (subcmd : BuildCmd) (config : ResolvedConfig)
    (locations : CrossLayerLocations) :
    (construct_libsel4_build_command subcmd config locations).args =
      ["rustc", "--manifest-path", subcmd.cargo_manifest_path] ++
      (if subcmd.release then ["--release"] else []) ++
      (if subcmd.loudness.verbose then ["--verbose"] else []) ++
      (if subcmd.loudness.quiet then ["--quiet"] else []) ++
      ["--target", config.fel4_config.target.full_name, "-p", "libsel4-sys"] := by
  obtain ⟨root_dir, ⟨ap, tsp, tgt, props⟩, pmn, arch⟩ := config
  cases tgt <;>
    simp [construct_libsel4_build_command, Command.new, Command.addArg,
      Command.argIf, Command.withEnv, Command.add_loudness_args,
      Command.handle_arm_edge_case, Command.add_locations_as_env_vars]

/-- No target's canonical triple name is the `--features` token. -/
theorem full_name_ne_features (t : SupportedTarget) :
    ¬ "--features" = t.full_name := by
  cases t <;> decide

/-- C8: the root-task build command carries a `--features` argument
exactly when the invocation is a test build, and in that case the fixed
feature pair `test alloc` immediately follows it (assuming the
configured manifest path is not itself the literal `--features`
token). -/
theorem test_build_enables_features (subcmd : BuildCmd) (config : ResolvedConfig)
    (locations : CrossLayerLocations)
    (h : subcmd.cargo_manifest_path ≠ "--features") :
    ("--features" ∈ (construct_root_task_build_command subcmd config
        locations).args ↔ subcmd.tests = true) ∧
    (subcmd.tests = true →
      (construct_root_task_build_command subcmd config locations).args =
        (["rustc", "--bin", "root-task", "--manifest-path",
            subcmd.cargo_manifest_path] ++
          (if subcmd.release then ["--release"] else []) ++
          (if subcmd.loudness.verbose then ["--verbose"] else []) ++
          (if subcmd.loudness.quiet then ["--quiet"] else [])) ++
        ["--features", "test alloc"] ++
        ["--target", config.fel4_config.target.full_name]) := by
  rw [construct_root_task_args]
  obtain ⟨mp, rel, tst, vb, qt⟩ := subcmd
  have h' : ¬ "--features" = mp := fun hh => h hh.symm
  cases tst <;>
    simp_all [full_name_ne_features]

/-- Concrete instantiation of `test_build_enables_features`: a test
build does, a plain build does not, carry `--features`. -/
theorem test_build_enables_features_witness :
    ("--features" ∈ (construct_root_task_build_command
        { sampleBuildCmd with tests := true } sampleConfigX86
        (cross_layer_locations_of sampleBuildCmd sampleConfigX86)).args ↔
      ({ sampleBuildCmd with tests := true } : BuildCmd).tests = true) ∧
    ("--features" ∈ (construct_root_task_build_command sampleBuildCmd
        sampleConfigX86
        (cross_layer_locations_of sampleBuildCmd sampleConfigX86)).args ↔
      sampleBuildCmd.tests = true) :=
  ⟨(test_build_enables_features { sampleBuildCmd with tests := true }
      sampleConfigX86 (cross_layer_locations_of sampleBuildCmd sampleConfigX86)
      (by decide)).1,
    (test_build_enables_features sampleBuildCmd sampleConfigX86
      (cross_layer_locations_of sampleBuildCmd sampleConfigX86) (by decide)).1⟩

/-- C9: the kernel-support (libsel4-sys) build command is independent of
the test switch — toggling `tests` leaves the constructed command
unchanged — and its argument list never contains the `--features` token
(assuming the configured manifest path is not itself that literal), so
the `test alloc` feature pair is applied only to the root-task build
command. -/
theorem libsel4_command_ignores_tests (subcmd : BuildCmd)
    (config : ResolvedConfig) (locations : CrossLayerLocations) (b : Bool)
    (h : subcmd.cargo_manifest_path ≠ "--features") :
    construct_libsel4_build_command { subcmd with tests := b } config locations =
      construct_libsel4_build_command subcmd config locations ∧
    "--features" ∉ (construct_libsel4_build_command subcmd config
      locations).args := by
  refine ⟨rfl, ?_⟩
  rw [construct_libsel4_args]
  obtain ⟨mp, rel, tst, vb, qt⟩ := subcmd
  have h' : ¬ "--features" = mp := fun hh => h hh.symm
  simp_all [full_name_ne_features]

/-- Concrete instantiation of `libsel4_command_ignores_tests`. -/
theorem libsel4_command_ignores_tests_witness :
    construct_libsel4_build_command { sampleBuildCmd with tests := true }
        sampleConfigArm
        (cross_layer_locations_of sampleBuildCmd sampleConfigArm) =
      construct_libsel4_build_command sampleBuildCmd sampleConfigArm
        (cross_layer_locations_of sampleBuildCmd sampleConfigArm) ∧
    "--features" ∉ (construct_libsel4_build_command sampleBuildCmd
      sampleConfigArm
      (cross_layer_locations_of sampleBuildCmd sampleConfigArm)).args :=
  libsel4_command_ignores_tests sampleBuildCmd sampleConfigArm
    (cross_layer_locations_of sampleBuildCmd sampleConfigArm) true (by decide)

end CargoFel4
